import Mathlib

/-!
Verification of the generic batching/export core of the local-otel WASM
telemetry component (`internal/batching`, `internal/provider`), shallowly
embedded in Lean.

Modelling conventions:

* The Go `Batcher[T]` struct stores `items`, `maxSize`, `timeout`, an export
  callback `exportFunc`, a mutex `mu`, a one-shot timer `timer` and a
  `stopped` flag.  The Lean `Batcher` carries the data fields; the export
  callback (fixed at construction, never reassigned) is passed explicitly to
  each operation, the one-shot `time.AfterFunc` timer handle is modelled by
  the flag `timerArmed` (armed = a pending `AfterFunc` callback exists), and
  the mutex is modelled explicitly (`RWMutex` below) only where a claim is
  about locking.  Operations return, besides the new state, the list of
  batches handed to the export callback, so that export activity is
  observable in theorems.
* Errors (Go `error`) are `Option` values: `none` is `nil`, `some e` is a
  non-nil error.  `fmt.Errorf("...: %w", err)` wrapping is string prefixing.
* Exporters are external collaborators behind the three-method
  `ExportLogs/ExportTraces/ExportMetrics` contract; each method is modelled
  by its result function together with a ledger of the batches delivered to
  it, so that "this exporter was invoked with this batch" is observable.
-/

namespace LocalOtel

/-! ### internal/batching: `Batcher[T]` -/

/-- State of `batching.Batcher[T]` (data fields of the Go struct). -/
structure Batcher (T : Type) where
  items : List T
  maxSize : Nat
  timeout : Nat
  stopped : Bool
  timerArmed : Bool
  deriving Repr, DecidableEq

/-- Result of one batcher operation: the returned `error`, the new batcher
state, and the batches passed to the export callback during the call. -/
structure BatchStep (T E : Type) where
  err : Option E
  state : Batcher T
  exports : List (List T)
  deriving Repr, DecidableEq

/-- Go `resetTimer`: stops any pending timer and arms a fresh one-shot
`time.AfterFunc(b.timeout, ...)` callback. -/
def resetTimer {T : Type} (b : Batcher T) : Batcher T :=
  { b with timerArmed := true }

/-- Go `exportLocked` (called with the lock held): if the buffer is empty,
return `nil` at once (note: without re-arming the timer); otherwise copy the
buffer, clear it, re-arm the timer, call `exportFunc` on the copy (the lock
is released around this call) and return its error. -/
def exportLocked {T E : Type} (exportFn : List T → Option E) (b : Batcher T) :
    BatchStep T E :=
  if b.items.length = 0 then
    ⟨none, b, []⟩
  else
    let itemsToExport := b.items
    let b1 : Batcher T := { b with items := [] }
    let b2 := resetTimer b1
    ⟨exportFn itemsToExport, b2, [itemsToExport]⟩

/-- Go `NewBatcher(maxSize, timeout, exportFunc)`: empty buffer, not stopped,
and the timeout timer armed immediately via `resetTimer`. -/
def NewBatcher (T : Type) (maxSize timeout : Nat) : Batcher T :=
  resetTimer { items := [], maxSize := maxSize, timeout := timeout,
               stopped := false, timerArmed := false }

/-- Go `Add(item)`: under the lock — if stopped, return `nil`; else append; if
the buffer has reached `maxSize`, export synchronously. -/
def Add {T E : Type} (exportFn : List T → Option E) (b : Batcher T) (item : T) :
    BatchStep T E :=
  if b.stopped then
    ⟨none, b, []⟩
  else
    let b1 : Batcher T := { b with items := b.items ++ [item] }
    if b1.items.length ≥ b1.maxSize then
      exportLocked exportFn b1
    else
      ⟨none, b1, []⟩

/-- Go `Flush()`: under the lock — if stopped, return `nil`; else export
whatever is pending. -/
def Flush {T E : Type} (exportFn : List T → Option E) (b : Batcher T) :
    BatchStep T E :=
  if b.stopped then
    ⟨none, b, []⟩
  else
    exportLocked exportFn b

/-- Go `Stop()`: mark stopped and cancel the timer.  No flush. -/
def Stop {T : Type} (b : Batcher T) : Batcher T :=
  { b with stopped := true, timerArmed := false }

/-- The `time.AfterFunc` callback, running when the armed one-shot timer
elapses: firing consumes the arming; then, under the lock, if not stopped,
run `exportLocked` with its error discarded. -/
def timerFired {T E : Type} (exportFn : List T → Option E) (b : Batcher T) :
    Batcher T × List (List T) :=
  let b1 : Batcher T := { b with timerArmed := false }
  if b1.stopped then
    (b1, [])
  else
    let s := exportLocked exportFn b1
    (s.state, s.exports)

/-- Events a batcher can undergo after construction: producer calls and the
elapsing of the timeout. -/
inductive BatcherOp (T : Type) where
  | add (x : T)
  | flush
  | stop
  | timeoutTick
  deriving Repr, DecidableEq

/-- One event.  A `timeoutTick` has an effect only if a one-shot timer is
currently armed (a cancelled or already-fired `AfterFunc` does not fire). -/
def step {T E : Type} (exportFn : List T → Option E) (b : Batcher T) :
    BatcherOp T → Batcher T × List (List T)
  | .add x => ((Add exportFn b x).state, (Add exportFn b x).exports)
  | .flush => ((Flush exportFn b).state, (Flush exportFn b).exports)
  | .stop => (Stop b, [])
  | .timeoutTick => if b.timerArmed then timerFired exportFn b else (b, [])

/-- Run a sequence of events, accumulating every batch handed to the export
callback. -/
def runOps {T E : Type} (exportFn : List T → Option E) :
    Batcher T → List (BatcherOp T) → Batcher T × List (List T)
  | b, [] => (b, [])
  | b, op :: rest =>
      let s1 := step exportFn b op
      let s2 := runOps exportFn s1.fst rest
      (s2.fst, s1.snd ++ s2.snd)

/-! ### internal/types: configuration and enumerations

The telemetry payload types (`LogRecord`, `SpanData`, `MetricPoint`) are
opaque to the batching core; the provider below is parameterized by item
types `L`, `S`, `M` exactly as the core treats them.  Attribute values
(`types.AttributeValue`) are modelled as strings, `StringValue` being the
only in-scope implementation. -/

/-- Go `types.ExportProtocol` (constants in source order). -/
inductive ExportProtocol where
  | otlpHTTP
  | otlpGRPC
  | statsD
  | prometheus
  | zipkin
  | jaeger
  | debugStdout
  deriving Repr, DecidableEq

/-- Go `types.SamplingStrategy`. -/
inductive SamplingStrategy where
  | alwaysOn
  | alwaysOff
  | probability
  | parentBased
  deriving Repr, DecidableEq

/-- Go `types.Attribute` with the value flattened to its string rendering. -/
structure Attribute where
  key : String
  value : String
  deriving Repr, DecidableEq

/-- Go `types.Header`. -/
structure Header where
  key : String
  value : String
  deriving Repr, DecidableEq

/-- Go `types.ProviderConfig`. -/
structure ProviderConfig where
  endpoint : String
  protocol : ExportProtocol
  serviceName : String
  serviceVersion : Option String
  environment : Option String
  resourceAttributes : List Attribute
  defaultTags : List Attribute
  headers : List Header
  compression : Bool
  timeoutMs : Nat
  batchSize : Nat
  maxQueueSize : Nat
  sampling : SamplingStrategy
  devMode : Bool
  deriving Repr, DecidableEq

/-! ### internal/exporter and internal/provider -/

/-- An exporter behind the `exporter.Exporter` interface
(`ExportLogs/ExportTraces/ExportMetrics`, each returning an error).  Each
method is modelled by its result function plus a ledger of the batches that
have been delivered to it, making invocations observable. -/
structure MExporter (L S M E : Type) where
  logsResult : List L → Option E
  tracesResult : List S → Option E
  metricsResult : List M → Option E
  logsReceived : List (List L)
  tracesReceived : List (List S)
  metricsReceived : List (List M)

/-- Go `debug.NewDebugExporter()`: prints batches to stdout and returns `nil`
(the only error path, a `json.MarshalIndent` failure, cannot occur for the
in-scope payload shapes), with nothing delivered yet. -/
def NewDebugExporter {L S M E : Type} : MExporter L S M E :=
  { logsResult := fun _ => none
    tracesResult := fun _ => none
    metricsResult := fun _ => none
    logsReceived := []
    tracesReceived := []
    metricsReceived := [] }

/-- Go `provider.Provider`.  The `sync.RWMutex` field `mu` is modelled
separately (`RWMutex` below) where a claim concerns locking. -/
structure Provider (L S M E : Type) where
  config : Option ProviderConfig
  exporters : List (ExportProtocol × MExporter L S M E)
  logBatcher : Option (Batcher L)
  traceBatcher : Option (Batcher S)
  metricBatcher : Option (Batcher M)
  shutdown : Bool

/-- Go `NewProvider()`: empty exporter map, nil config and batchers, not shut
down. -/
def NewProvider (L S M E : Type) : Provider L S M E :=
  { config := none, exporters := [], logBatcher := none,
    traceBatcher := none, metricBatcher := none, shutdown := false }

/-- Go map assignment `m[k] = v` on the exporter registry, modelled on an
association list (Go map iteration order is unspecified; the claims do not
depend on it). -/
def insertExporter {L S M E : Type} (k : ExportProtocol) (v : MExporter L S M E) :
    List (ExportProtocol × MExporter L S M E) →
    List (ExportProtocol × MExporter L S M E)
  | [] => [(k, v)]
  | (k1, v1) :: rest =>
      if k1 = k then (k, v) :: rest else (k1, v1) :: insertExporter k v rest

/-- The loop body of `Provider.exportLogs`: call `ExportLogs` on every
registered exporter; a non-nil error is only printed when `config.DevMode`
(printing has no state effect) and never stops the iteration. -/
def exportLogsLoop {L S M E : Type} (logs : List L) :
    List (ExportProtocol × MExporter L S M E) →
    List (ExportProtocol × MExporter L S M E)
  | [] => []
  | (proto, exp) :: rest =>
      let _err := exp.logsResult logs
      (proto, { exp with logsReceived := exp.logsReceived ++ [logs] }) ::
        exportLogsLoop logs rest

/-- The loop body of `Provider.exportTraces` (same shape as logs). -/
def exportTracesLoop {L S M E : Type} (spans : List S) :
    List (ExportProtocol × MExporter L S M E) →
    List (ExportProtocol × MExporter L S M E)
  | [] => []
  | (proto, exp) :: rest =>
      let _err := exp.tracesResult spans
      (proto, { exp with tracesReceived := exp.tracesReceived ++ [spans] }) ::
        exportTracesLoop spans rest

/-- The loop body of `Provider.exportMetrics` (same shape as logs). -/
def exportMetricsLoop {L S M E : Type} (metrics : List M) :
    List (ExportProtocol × MExporter L S M E) →
    List (ExportProtocol × MExporter L S M E)
  | [] => []
  | (proto, exp) :: rest =>
      let _err := exp.metricsResult metrics
      (proto, { exp with metricsReceived := exp.metricsReceived ++ [metrics] }) ::
        exportMetricsLoop metrics rest

/-- Go `Provider.exportLogs` (unexported fan-out): iterate the registry,
continue past per-exporter errors, and return `nil`. -/
def Provider.exportLogs {L S M E : Type} (p : Provider L S M E) (logs : List L) :
    Option String × Provider L S M E :=
  (none, { p with exporters := exportLogsLoop logs p.exporters })

/-- Go `Provider.exportTraces` (unexported fan-out). -/
def Provider.exportTraces {L S M E : Type} (p : Provider L S M E) (spans : List S) :
    Option String × Provider L S M E :=
  (none, { p with exporters := exportTracesLoop spans p.exporters })

/-- Go `Provider.exportMetrics` (unexported fan-out). -/
def Provider.exportMetrics {L S M E : Type} (p : Provider L S M E) (metrics : List M) :
    Option String × Provider L S M E :=
  (none, { p with exporters := exportMetricsLoop metrics p.exporters })

/-- Go `Provider.ExportLogs` (exported entry point): delegates to the fan-out
with no shutdown check. -/
def Provider.ExportLogs {L S M E : Type} (p : Provider L S M E) (logs : List L) :
    Option String × Provider L S M E :=
  Provider.exportLogs p logs

/-- Go `Provider.ExportTraces` (exported entry point). -/
def Provider.ExportTraces {L S M E : Type} (p : Provider L S M E) (spans : List S) :
    Option String × Provider L S M E :=
  Provider.exportTraces p spans

/-- Go `Provider.ExportMetrics` (exported entry point). -/
def Provider.ExportMetrics {L S M E : Type} (p : Provider L S M E) (metrics : List M) :
    Option String × Provider L S M E :=
  Provider.exportMetrics p metrics

/-- Go `logger.Logger` handle as returned by `logger.NewLogger(provider, name,
version)`: the provider back-reference (an interface pointer, not
observable data) is omitted; the trace-context/correlation fields start
nil. -/
structure MLogger where
  name : String
  version : Option String
  deriving Repr, DecidableEq

/-- Go `tracer.Tracer` handle (provider back-reference omitted). -/
structure MTracer where
  name : String
  version : Option String
  deriving Repr, DecidableEq

/-- Go `meter.Meter` handle (provider back-reference omitted). -/
structure MMeter where
  name : String
  version : Option String
  deriving Repr, DecidableEq

/-- Go `Provider.CreateLogger(name, version)`: fail fast when shut down, else
return a fresh handle. -/
def Provider.CreateLogger {L S M E : Type} (p : Provider L S M E)
    (name : String) (version : Option String) : Except String MLogger :=
  if p.shutdown then Except.error "provider is shut down"
  else Except.ok { name := name, version := version }

/-- Go `Provider.CreateTracer(name, version)`. -/
def Provider.CreateTracer {L S M E : Type} (p : Provider L S M E)
    (name : String) (version : Option String) : Except String MTracer :=
  if p.shutdown then Except.error "provider is shut down"
  else Except.ok { name := name, version := version }

/-- Go `Provider.CreateMeter(name, version)`. -/
def Provider.CreateMeter {L S M E : Type} (p : Provider L S M E)
    (name : String) (version : Option String) : Except String MMeter :=
  if p.shutdown then Except.error "provider is shut down"
  else Except.ok { name := name, version := version }

/-- Go `Provider.Initialize(config)`: fail if shut down; assign `p.config`
before validating the protocol; on `OTLPHTTP` or an unsupported protocol
return an error (with the config already replaced); on `DebugStdout`
register the debug exporter and construct the three batchers (each wired at
construction to the matching fan-out closure; the `Batcher` model takes the
callback per operation, see `wiredLogExport` below). -/
def Provider.Initialize {L S M E : Type} (p : Provider L S M E)
    (config : ProviderConfig) : Option String × Provider L S M E :=
  if p.shutdown then
    (some "provider is shut down", p)
  else
    let p1 : Provider L S M E := { p with config := some config }
    match config.protocol with
    | .otlpHTTP => (some "OTLP HTTP exporter not yet implemented", p1)
    | .debugStdout =>
        let p2 : Provider L S M E :=
          { p1 with exporters := insertExporter .debugStdout NewDebugExporter p1.exporters }
        let p3 : Provider L S M E :=
          { p2 with
            logBatcher := some (NewBatcher L config.batchSize config.timeoutMs)
            traceBatcher := some (NewBatcher S config.batchSize config.timeoutMs)
            metricBatcher := some (NewBatcher M config.batchSize config.timeoutMs) }
        (none, p3)
    | _ => (some "unsupported protocol", p1)

/-- The export callback `Initialize` wires into the log batcher:
`func(items) error { return p.exportLogs(items) }`.  Only the returned
error reaches the batcher; the fan-out's printing is I/O. -/
def wiredLogExport {L S M E : Type} (p : Provider L S M E) : List L → Option String :=
  fun items => (Provider.exportLogs p items).fst

/-- The export callback wired into the trace batcher. -/
def wiredTraceExport {L S M E : Type} (p : Provider L S M E) : List S → Option String :=
  fun items => (Provider.exportTraces p items).fst

/-- The export callback wired into the metric batcher. -/
def wiredMetricExport {L S M E : Type} (p : Provider L S M E) : List M → Option String :=
  fun items => (Provider.exportMetrics p items).fst

/-- Result of `Provider.ForceFlush`/`Provider.Shutdown`: the returned error,
the new provider state, and the batches each signal type handed to its
export callback during the call. -/
structure FlushOutcome (L S M E : Type) where
  err : Option String
  prov : Provider L S M E
  logExports : List (List L)
  traceExports : List (List S)
  metricExports : List (List M)

/-- Go `if p.logBatcher != nil { err := p.logBatcher.Flush() ... }` with the
callback `fL` the log batcher was wired to. -/
def flushLogBatcher {L S M E : Type} (fL : List L → Option String)
    (p : Provider L S M E) :
    Provider L S M E × List (List L) × Option String :=
  match p.logBatcher with
  | none => (p, [], none)
  | some lb =>
      let s := Flush fL lb
      ({ p with logBatcher := some s.state }, s.exports, s.err)

/-- Trace analogue of `flushLogBatcher`. -/
def flushTraceBatcher {L S M E : Type} (fS : List S → Option String)
    (p : Provider L S M E) :
    Provider L S M E × List (List S) × Option String :=
  match p.traceBatcher with
  | none => (p, [], none)
  | some tb =>
      let s := Flush fS tb
      ({ p with traceBatcher := some s.state }, s.exports, s.err)

/-- Metric analogue of `flushLogBatcher`. -/
def flushMetricBatcher {L S M E : Type} (fM : List M → Option String)
    (p : Provider L S M E) :
    Provider L S M E × List (List M) × Option String :=
  match p.metricBatcher with
  | none => (p, [], none)
  | some mb =>
      let s := Flush fM mb
      ({ p with metricBatcher := some s.state }, s.exports, s.err)

/-- Go `Provider.ForceFlush()` body: fail if shut down; flush the log, trace
and metric batchers in that order, returning at the first error wrapped
with `fmt.Errorf("failed to flush <signal>: %w", err)`.  `fL`, `fS`, `fM`
are the callbacks the batchers were wired to at `Initialize`. -/
def Provider.ForceFlush {L S M E : Type} (fL : List L → Option String)
    (fS : List S → Option String) (fM : List M → Option String)
    (p : Provider L S M E) : FlushOutcome L S M E :=
  if p.shutdown then
    ⟨some "provider is shut down", p, [], [], []⟩
  else
    match flushLogBatcher fL p with
    | (p1, exL, some e) => ⟨some ("failed to flush logs: " ++ e), p1, exL, [], []⟩
    | (p1, exL, none) =>
      match flushTraceBatcher fS p1 with
      | (p2, exS, some e) =>
          ⟨some ("failed to flush traces: " ++ e), p2, exL, exS, []⟩
      | (p2, exS, none) =>
        match flushMetricBatcher fM p2 with
        | (p3, exM, some e) =>
            ⟨some ("failed to flush metrics: " ++ e), p3, exL, exS, exM⟩
        | (p3, exM, none) => ⟨none, p3, exL, exS, exM⟩

/-! ### The provider's `sync.RWMutex`

`Provider.ForceFlush` read-locks `p.mu`; `Provider.Shutdown` write-locks it
and then calls `ForceFlush` on the same goroutine.  The mutex is modelled
explicitly so that this interaction is visible: `none` from an acquisition
means the call blocks, and on a single goroutine — nobody else ever
releases the lock — a blocked acquisition never completes. -/

/-- A `sync.RWMutex`: whether a writer holds it and how many readers do. -/
structure RWMutex where
  writeHeld : Bool
  readers : Nat
  deriving Repr, DecidableEq

/-- A mutex nobody holds. -/
def muFree : RWMutex := { writeHeld := false, readers := 0 }

/-- Go `RLock()`: blocks (`none`) while a writer holds the lock. -/
def RWMutex.rLock (m : RWMutex) : Option RWMutex :=
  if m.writeHeld then none else some { m with readers := m.readers + 1 }

/-- Go `RUnlock()`. -/
def RWMutex.rUnlock (m : RWMutex) : RWMutex :=
  { m with readers := m.readers - 1 }

/-- Go `Lock()`: blocks (`none`) while any reader or writer holds the lock. -/
def RWMutex.lock (m : RWMutex) : Option RWMutex :=
  if m.writeHeld ∨ m.readers ≠ 0 then none else some { m with writeHeld := true }

/-- Go `Unlock()`. -/
def RWMutex.unlock (m : RWMutex) : RWMutex :=
  { m with writeHeld := false }

/-- Go `Provider.ForceFlush()` with its `p.mu.RLock()` / deferred `RUnlock()`
made explicit.  (The nested read-locks taken by the wired fan-out callbacks
during the flush are balanced and acquired while this read lock is held, so
they succeed exactly when the outer one does.) -/
def Provider.ForceFlushLocked {L S M E : Type} (mu : RWMutex)
    (fL : List L → Option String) (fS : List S → Option String)
    (fM : List M → Option String) (p : Provider L S M E) :
    Option (RWMutex × FlushOutcome L S M E) :=
  match RWMutex.rLock mu with
  | none => none
  | some mu1 => some (RWMutex.rUnlock mu1, Provider.ForceFlush fL fS fM p)

/-- Go `Provider.Shutdown()` with its `p.mu.Lock()` / deferred `Unlock()` made
explicit: return `nil` at once if already shut down; otherwise call
`p.ForceFlush()` — which read-locks the same `p.mu` this goroutine just
write-locked — then `Stop()` each non-nil batcher, set `shutdown = true`
and return `nil`. -/
def Provider.Shutdown {L S M E : Type} (mu : RWMutex)
    (fL : List L → Option String) (fS : List S → Option String)
    (fM : List M → Option String) (p : Provider L S M E) :
    Option (RWMutex × Option String × Provider L S M E) :=
  match RWMutex.lock mu with
  | none => none
  | some mu1 =>
    if p.shutdown then
      some (RWMutex.unlock mu1, none, p)
    else
      match Provider.ForceFlushLocked mu1 fL fS fM p with
      | none => none
      | some (mu2, out) =>
        match out.err with
        | some e =>
            some (RWMutex.unlock mu2,
              some ("failed to flush during shutdown: " ++ e), out.prov)
        | none =>
            let p2 := out.prov
            let p3 : Provider L S M E :=
              { p2 with
                logBatcher := Option.map Stop p2.logBatcher
                traceBatcher := Option.map Stop p2.traceBatcher
                metricBatcher := Option.map Stop p2.metricBatcher
                shutdown := true }
            some (RWMutex.unlock mu2, none, p3)

/-! ### Concrete instances (for counterexamples and witness evaluations)

Item types are instantiated with `Nat` — the core is parametric in them —
and exporter errors with `String`. -/

/-- An export callback that always succeeds. -/
def fnOk : List Nat → Option String := fun _ => none

/-- An export callback that always fails. -/
def fnBoom : List Nat → Option String := fun _ => some "boom"

/-- A debug-stdout configuration. -/
def cfgDebug : ProviderConfig :=
  { endpoint := "stdout", protocol := .debugStdout, serviceName := "svc",
    serviceVersion := none, environment := none, resourceAttributes := [],
    defaultTags := [], headers := [], compression := false,
    timeoutMs := 5000, batchSize := 5, maxQueueSize := 100,
    sampling := .alwaysOn, devMode := false }

/-- A configuration selecting a protocol the provider does not implement. -/
def cfgStatsD : ProviderConfig :=
  { cfgDebug with protocol := .statsD }

/-- An initialized, not-shut-down provider whose three batchers each hold
one pending item. -/
def pPending : Provider Nat Nat Nat String :=
  { config := some cfgDebug
    exporters := [(.debugStdout, NewDebugExporter)]
    logBatcher := some { items := [10], maxSize := 5, timeout := 5000,
                         stopped := false, timerArmed := true }
    traceBatcher := some { items := [20], maxSize := 5, timeout := 5000,
                           stopped := false, timerArmed := true }
    metricBatcher := some { items := [30], maxSize := 5, timeout := 5000,
                            stopped := false, timerArmed := true }
    shutdown := false }

/-- A provider whose `shutdown` flag is set, with an exporter still
registered and batchers still present. -/
def pShut : Provider Nat Nat Nat String :=
  { pPending with shutdown := true }

/-- A stopped batcher still holding a pending item. -/
def bStopped : Batcher Nat :=
  { items := [7], maxSize := 5, timeout := 5000,
    stopped := true, timerArmed := false }

/-! ### Helper lemmas -/

/-- Unfolding of `runOps` on a cons. -/
theorem runOps_cons {T E : Type} (f : List T → Option E) (b : Batcher T)
    (op : BatcherOp T) (ops : List (BatcherOp T)) :
    runOps f b (op :: ops) =
      ((runOps f (step f b op).fst ops).fst,
       (step f b op).snd ++ (runOps f (step f b op).fst ops).snd) := rfl

/-- An `Add` that does not reach `maxSize` only appends. -/
theorem step_add_no_export {T E : Type} (f : List T → Option E) (b : Batcher T)
    (x : T) (hs : b.stopped = false) (hlt : b.items.length + 1 < b.maxSize) :
    step f b (BatcherOp.add x) = ({ b with items := b.items ++ [x] }, []) := by
  have hcond : ¬ b.maxSize ≤ b.items.length + 1 := by omega
  simp [step, Add, hs, hcond]

/-- A run of `Add`s that stays strictly below `maxSize` only accumulates. -/
theorem runOps_adds_under {T E : Type} (f : List T → Option E) :
    ∀ (xs : List T) (b : Batcher T), b.stopped = false →
      b.items.length + xs.length < b.maxSize →
      runOps f b (xs.map BatcherOp.add) = ({ b with items := b.items ++ xs }, []) := by
  intro xs
  induction xs with
  | nil => intro b _ _; simp [runOps]
  | cons x rest ih =>
      intro b hs hlen
      have hlt : b.items.length + 1 < b.maxSize := by
        simp only [List.length_cons] at hlen; omega
      have hlen1 : ({ b with items := b.items ++ [x] } : Batcher T).items.length
          + rest.length < b.maxSize := by
        simp only [List.length_append, List.length_cons, List.length_nil]
        simp only [List.length_cons] at hlen
        omega
      simp only [List.map_cons, runOps_cons, step_add_no_export f b x hs hlt]
      simp only [ih { b with items := b.items ++ [x] } hs hlen1]
      simp [List.append_assoc]

/-- A run of `Add`s that exactly fills the batch triggers one export of the
accumulated buffer, leaving it empty with the timer re-armed. -/
theorem runOps_adds_fill {T E : Type} (f : List T → Option E) :
    ∀ (xs : List T) (b : Batcher T), b.stopped = false → xs ≠ [] →
      b.items.length + xs.length = b.maxSize →
      runOps f b (xs.map BatcherOp.add) =
        ({ b with items := [], timerArmed := true }, [b.items ++ xs]) := by
  intro xs
  induction xs with
  | nil => intro b _ hne _; exact absurd rfl hne
  | cons x rest ih =>
      intro b hs _ hlen
      by_cases hr : rest = []
      · subst hr
        have hcond : b.maxSize ≤ b.items.length + 1 := by
          simp only [List.length_cons, List.length_nil] at hlen
          omega
        simp [runOps_cons, runOps, step, Add, hs, hcond, exportLocked, resetTimer]
      · have hrlen : rest.length ≠ 0 := fun h => hr (List.length_eq_zero.mp h)
        have hlt : b.items.length + 1 < b.maxSize := by
          simp only [List.length_cons] at hlen; omega
        have hlen1 : ({ b with items := b.items ++ [x] } : Batcher T).items.length
            + rest.length = b.maxSize := by
          simp only [List.length_append, List.length_cons, List.length_nil]
          simp only [List.length_cons] at hlen
          omega
        simp only [List.map_cons, runOps_cons, step_add_no_export f b x hs hlt]
        simp only [ih { b with items := b.items ++ [x] } hs hr hlen1]
        simp [List.append_assoc]

/-- Once stopped, a step keeps the batcher stopped and exports nothing. -/
theorem step_stopped_no_export {T E : Type} (f : List T → Option E)
    (b : Batcher T) (op : BatcherOp T) (hs : b.stopped = true) :
    (step f b op).fst.stopped = true ∧ (step f b op).snd = [] := by
  cases op with
  | add x => simp [step, Add, hs]
  | flush => simp [step, Flush, hs]
  | stop => simp [step, Stop]
  | timeoutTick =>
      by_cases h : b.timerArmed <;> simp [step, timerFired, hs, h]

/-- No run of events starting from a stopped batcher ever exports. -/
theorem runOps_stopped_no_export {T E : Type} (f : List T → Option E) :
    ∀ (ops : List (BatcherOp T)) (b : Batcher T), b.stopped = true →
      (runOps f b ops).snd = [] := by
  intro ops
  induction ops with
  | nil => intro b _; simp [runOps]
  | cons op rest ih =>
      intro b hs
      obtain ⟨h1, h2⟩ := step_stopped_no_export f b op hs
      simp [runOps, h2, ih _ h1]

/-- The log fan-out loop delivers the batch to every registered exporter. -/
theorem exportLogsLoop_eq_map {L S M E : Type} (logs : List L) :
    ∀ es : List (ExportProtocol × MExporter L S M E),
      exportLogsLoop logs es =
        es.map (fun pe =>
          (pe.fst, { pe.snd with logsReceived := pe.snd.logsReceived ++ [logs] })) := by
  intro es
  induction es with
  | nil => simp [exportLogsLoop]
  | cons pe rest ih => obtain ⟨proto, exp⟩ := pe; simp [exportLogsLoop, ih]

/-- The trace fan-out loop delivers the batch to every registered exporter. -/
theorem exportTracesLoop_eq_map {L S M E : Type} (spans : List S) :
    ∀ es : List (ExportProtocol × MExporter L S M E),
      exportTracesLoop spans es =
        es.map (fun pe =>
          (pe.fst, { pe.snd with tracesReceived := pe.snd.tracesReceived ++ [spans] })) := by
  intro es
  induction es with
  | nil => simp [exportTracesLoop]
  | cons pe rest ih => obtain ⟨proto, exp⟩ := pe; simp [exportTracesLoop, ih]

/-- The metric fan-out loop delivers the batch to every registered exporter. -/
theorem exportMetricsLoop_eq_map {L S M E : Type} (metrics : List M) :
    ∀ es : List (ExportProtocol × MExporter L S M E),
      exportMetricsLoop metrics es =
        es.map (fun pe =>
          (pe.fst, { pe.snd with metricsReceived := pe.snd.metricsReceived ++ [metrics] })) := by
  intro es
  induction es with
  | nil => simp [exportMetricsLoop]
  | cons pe rest ih => obtain ⟨proto, exp⟩ := pe; simp [exportMetricsLoop, ih]

/-- If the export callback never errors, `Add` never errors. -/
theorem Add_err_none {T E : Type} (f : List T → Option E)
    (hf : ∀ l, f l = none) (b : Batcher T) (x : T) :
    (Add f b x).err = none := by
  simp only [Add, exportLocked]
  split
  · rfl
  · split
    · split
      · rfl
      · simp [hf]
    · rfl

/-- If the export callback never errors, `Flush` never errors. -/
theorem Flush_err_none {T E : Type} (f : List T → Option E)
    (hf : ∀ l, f l = none) (b : Batcher T) :
    (Flush f b).err = none := by
  simp only [Flush, exportLocked]
  split
  · rfl
  · split
    · rfl
    · simp [hf]

/-! ### Claim theorems -/

/-- Claim C5 (confirmed): for every `maxSize = N ≥ 1` and every sequence of
exactly `N` items added to a fresh (empty, non-stopped) batcher, exactly one
export-callback invocation occurs, on the `N`th `Add` (no invocation during
any proper prefix of the adds), its argument is exactly those `N` items in
insertion order, and the pending buffer is empty afterward. -/
theorem size_triggered_flush {T E : Type} (f : List T → Option E)
    (N t k : Nat) (xs : List T)
    (hN : 1 ≤ N) (hxs : xs.length = N) (hk : k < N) :
    runOps f (NewBatcher T N t) (xs.map BatcherOp.add) =
      ({ items := [], maxSize := N, timeout := t, stopped := false,
         timerArmed := true }, [xs]) ∧
    runOps f (NewBatcher T N t) ((xs.take k).map BatcherOp.add) =
      ({ items := xs.take k, maxSize := N, timeout := t, stopped := false,
         timerArmed := true }, []) := by
  have hb : (NewBatcher T N t).stopped = false := rfl
  constructor
  · have hne : xs ≠ [] := by
      intro h
      rw [h] at hxs
      simp only [List.length_nil] at hxs
      omega
    have hlen : (NewBatcher T N t).items.length + xs.length
        = (NewBatcher T N t).maxSize := by
      simp [NewBatcher, resetTimer, hxs]
    have hfill := runOps_adds_fill f xs (NewBatcher T N t) hb hne hlen
    simpa [NewBatcher, resetTimer] using hfill
  · have htk : (xs.take k).length = k := by
      rw [List.length_take, hxs]
      omega
    have hlen2 : (NewBatcher T N t).items.length + (xs.take k).length
        < (NewBatcher T N t).maxSize := by
      simp [NewBatcher, resetTimer, htk]
      omega
    have hunder := runOps_adds_under f (xs.take k) (NewBatcher T N t) hb hlen2
    simpa [NewBatcher, resetTimer] using hunder

/-- Witness for C5: `N = 3`, items `[1, 2, 3]`, prefix length `k = 2`. -/
theorem size_triggered_flush_witness :
    runOps fnOk (NewBatcher Nat 3 1000) ([1, 2, 3].map BatcherOp.add) =
      ({ items := [], maxSize := 3, timeout := 1000, stopped := false,
         timerArmed := true }, [[1, 2, 3]]) ∧
    runOps fnOk (NewBatcher Nat 3 1000) (([1, 2, 3].take 2).map BatcherOp.add) =
      ({ items := [1, 2, 3].take 2, maxSize := 3, timeout := 1000,
         stopped := false, timerArmed := true }, []) :=
  size_triggered_flush fnOk 3 1000 2 [1, 2, 3] (by decide) rfl (by decide)

/-- Claim C7 (confirmed): adding to a stopped batcher returns `nil`, leaves
the state unchanged (nothing appended), triggers no export, and the item
never appears in any batch exported by any later sequence of events. -/
theorem add_after_stop_dropped {T E : Type} (f : List T → Option E)
    (b : Batcher T) (x : T) (ops : List (BatcherOp T))
    (hs : b.stopped = true) :
    Add f b x = ⟨none, b, []⟩ ∧
    (runOps f b (BatcherOp.add x :: ops)).snd = [] := by
  constructor
  · simp [Add, hs]
  · exact runOps_stopped_no_export f (BatcherOp.add x :: ops) b hs

/-- Witness for C7: a stopped batcher holding `[7]`, adding `9`, followed by
a flush call and a timeout tick. -/
theorem add_after_stop_dropped_witness :
    Add fnOk bStopped 9 = ⟨none, bStopped, []⟩ ∧
    (runOps fnOk bStopped
      (BatcherOp.add 9 :: [BatcherOp.flush, BatcherOp.timeoutTick])).snd = [] :=
  add_after_stop_dropped fnOk bStopped 9 [BatcherOp.flush, BatcherOp.timeoutTick] rfl

/-- Claim C8 (confirmed): `Stop` is idempotent (a second `Stop` yields the
same state), produces no error (it returns nothing), cancels the timer,
leaves pending items un-flushed in the buffer, `Flush` on a stopped batcher
returns `nil` and calls nothing, and no sequence of later events ever
invokes the export callback. -/
theorem stop_idempotent_no_export {T E : Type} (f : List T → Option E)
    (b : Batcher T) (ops : List (BatcherOp T)) :
    Stop (Stop b) = Stop b ∧
    (Stop b).items = b.items ∧
    (Stop b).stopped = true ∧
    (Stop b).timerArmed = false ∧
    Flush f (Stop b) = ⟨none, Stop b, []⟩ ∧
    (runOps f (Stop b) ops).snd = [] := by
  refine ⟨rfl, rfl, rfl, rfl, ?_, ?_⟩
  · simp [Flush, Stop]
  · exact runOps_stopped_no_export f ops (Stop b) rfl

/-- Claim C2 (code bug): the spec says every timeout tick re-arms the timer,
including a tick that finds the buffer empty, so that `k < maxSize` items
added at any point are exported on the next elapsed timeout.  In the code,
`exportLocked` on an empty buffer returns before reaching `resetTimer`, and
`time.AfterFunc` timers are one-shot — so the first idle tick leaves the
timer permanently disarmed, and an item added afterwards is never exported
by timeout.  This theorem evaluates the code at that failing input: the
fresh batcher's first (empty) tick exports nothing and disarms the timer,
and after `Add 1` any number of elapsed timeouts still exports nothing,
leaving the item stuck in the buffer, where the claim demands exactly one
export `[[1]]`. -/
theorem empty_tick_disarms_timer_bug :
    step fnOk (NewBatcher Nat 3 1000) BatcherOp.timeoutTick =
      ({ items := [], maxSize := 3, timeout := 1000, stopped := false,
         timerArmed := false }, []) ∧
    runOps fnOk (NewBatcher Nat 3 1000)
        [BatcherOp.timeoutTick, BatcherOp.add 1,
         BatcherOp.timeoutTick, BatcherOp.timeoutTick] =
      ({ items := [1], maxSize := 3, timeout := 1000, stopped := false,
         timerArmed := false }, []) :=
  ⟨rfl, rfl⟩

/-- Claim C6 (confirmed): for every registered set of exporters and every
batch, each of the three fan-outs delivers the batch to every registered
exporter — whatever errors the individual exporters return — and itself
returns `nil`, so one failing sink neither prevents delivery to the others
nor fails the batcher's flush. -/
theorem fanout_isolation_returns_nil {L S M E : Type} (p : Provider L S M E)
    (logs : List L) (spans : List S) (metrics : List M) :
    Provider.exportLogs p logs =
      (none, { p with exporters := p.exporters.map (fun pe =>
        (pe.fst, { pe.snd with logsReceived := pe.snd.logsReceived ++ [logs] })) }) ∧
    Provider.exportTraces p spans =
      (none, { p with exporters := p.exporters.map (fun pe =>
        (pe.fst, { pe.snd with tracesReceived := pe.snd.tracesReceived ++ [spans] })) }) ∧
    Provider.exportMetrics p metrics =
      (none, { p with exporters := p.exporters.map (fun pe =>
        (pe.fst, { pe.snd with metricsReceived := pe.snd.metricsReceived ++ [metrics] })) }) := by
  refine ⟨?_, ?_, ?_⟩
  · simp [Provider.exportLogs, exportLogsLoop_eq_map]
  · simp [Provider.exportTraces, exportTracesLoop_eq_map]
  · simp [Provider.exportMetrics, exportMetricsLoop_eq_map]

/-- Claim C10 (confirmed): the export callbacks `Initialize` wires into the
batchers (`func(items) { return p.exportLogs(items) }` and the trace/metric
analogues) return `nil` on every input, so `Add` and `Flush` on a
provider-owned batcher never return a non-nil error, whatever the
registered exporters do. -/
theorem wired_callback_never_errors {L S M E : Type} (p : Provider L S M E)
    (bL : Batcher L) (bS : Batcher S) (bM : Batcher M) (x : L) (y : S) (z : M) :
    (∀ items, wiredLogExport p items = none) ∧
    (∀ items, wiredTraceExport p items = none) ∧
    (∀ items, wiredMetricExport p items = none) ∧
    (Add (wiredLogExport p) bL x).err = none ∧
    (Flush (wiredLogExport p) bL).err = none ∧
    (Add (wiredTraceExport p) bS y).err = none ∧
    (Flush (wiredTraceExport p) bS).err = none ∧
    (Add (wiredMetricExport p) bM z).err = none ∧
    (Flush (wiredMetricExport p) bM).err = none := by
  have hfL : ∀ items, wiredLogExport p items = none := fun _ => rfl
  have hfS : ∀ items, wiredTraceExport p items = none := fun _ => rfl
  have hfM : ∀ items, wiredMetricExport p items = none := fun _ => rfl
  exact ⟨hfL, hfS, hfM,
    Add_err_none _ hfL bL x, Flush_err_none _ hfL bL,
    Add_err_none _ hfS bS y, Flush_err_none _ hfS bS,
    Add_err_none _ hfM bM z, Flush_err_none _ hfM bM⟩

/-- Counterexample to claim C3 as stated: `pShut` is a shut-down provider,
yet the export entry points return `nil` (no error) instead of failing
fast — `Provider.ExportLogs/ExportTraces/ExportMetrics` delegate to the
fan-out without any `shutdown` check. -/
theorem shutdown_failfast_counterexample :
    pShut.shutdown = true ∧
    (Provider.ExportLogs pShut [0]).fst = none ∧
    (Provider.ExportTraces pShut [0]).fst = none ∧
    (Provider.ExportMetrics pShut [0]).fst = none :=
  ⟨rfl, rfl, rfl, rfl⟩

/-- Claim C3 (corrected): once `shutdown == true`, the factory methods
(`CreateLogger`, `CreateTracer`, `CreateMeter`) and `Initialize` fail fast
with the explicit "provider is shut down" error, but the export entry
points (`ExportLogs`, `ExportTraces`, `ExportMetrics`) perform no shutdown
check: they run the fan-out over the still-registered exporters and return
`nil`. -/
theorem shutdown_failfast_amended {L S M E : Type} (p : Provider L S M E)
    (c : ProviderConfig) (name : String) (ver : Option String)
    (logs : List L) (spans : List S) (metrics : List M)
    (hs : p.shutdown = true) :
    Provider.CreateLogger p name ver = Except.error "provider is shut down" ∧
    Provider.CreateTracer p name ver = Except.error "provider is shut down" ∧
    Provider.CreateMeter p name ver = Except.error "provider is shut down" ∧
    Provider.Initialize p c = (some "provider is shut down", p) ∧
    (Provider.ExportLogs p logs).fst = none ∧
    (Provider.ExportTraces p spans).fst = none ∧
    (Provider.ExportMetrics p metrics).fst = none := by
  refine ⟨?_, ?_, ?_, ?_, rfl, rfl, rfl⟩
  · simp [Provider.CreateLogger, hs]
  · simp [Provider.CreateTracer, hs]
  · simp [Provider.CreateMeter, hs]
  · simp [Provider.Initialize, hs]

/-- Witness for the amended C3, at the concrete shut-down provider. -/
theorem shutdown_failfast_amended_witness :
    Provider.CreateLogger pShut "app" none = Except.error "provider is shut down" ∧
    Provider.CreateTracer pShut "app" none = Except.error "provider is shut down" ∧
    Provider.CreateMeter pShut "app" none = Except.error "provider is shut down" ∧
    Provider.Initialize pShut cfgDebug = (some "provider is shut down", pShut) ∧
    (Provider.ExportLogs pShut [1]).fst = none ∧
    (Provider.ExportTraces pShut [2]).fst = none ∧
    (Provider.ExportMetrics pShut [3]).fst = none :=
  shutdown_failfast_amended pShut cfgDebug "app" none [1] [2] [3] rfl

/-- Claim C9 (confirmed): `Initialize` is not atomic on failure — for every
non-shut-down provider and every config whose protocol is not
`DebugStdout` (`OTLPHTTP` included, being unimplemented), it returns an
error, yet the provider's `config` field has already been replaced by the
rejected config while the exporter registry, the three batchers and the
shutdown flag are unchanged. -/
theorem config_replaced_on_rejected_protocol {L S M E : Type}
    (p : Provider L S M E) (c : ProviderConfig)
    (hs : p.shutdown = false) (hp : c.protocol ≠ ExportProtocol.debugStdout) :
    (Provider.Initialize p c).fst ≠ none ∧
    (Provider.Initialize p c).snd = { p with config := some c } := by
  unfold Provider.Initialize
  simp only [hs, Bool.false_eq_true, if_false]
  cases hc : c.protocol with
  | otlpHTTP => simp
  | otlpGRPC => simp
  | statsD => simp
  | prometheus => simp
  | zipkin => simp
  | jaeger => simp
  | debugStdout => exact absurd hc hp

/-- Witness for C9: a fresh provider and a StatsD config. -/
theorem config_replaced_on_rejected_protocol_witness :
    (Provider.Initialize (NewProvider Nat Nat Nat String) cfgStatsD).fst ≠ none ∧
    (Provider.Initialize (NewProvider Nat Nat Nat String) cfgStatsD).snd =
      { NewProvider Nat Nat Nat String with config := some cfgStatsD } :=
  config_replaced_on_rejected_protocol (NewProvider Nat Nat Nat String) cfgStatsD
    rfl (by decide)

/-- Counterexample to claim C1 as stated: a provider whose three batchers
each hold a pending item and whose log-batcher callback fails.  `ForceFlush`
returns only the wrapped log error, the trace and metric batchers are not
flushed (no export call; their pending items remain), so a flush failure on
the first signal type does abort the remaining ones and no aggregation
happens. -/
theorem forceflush_aggregation_counterexample :
    (Provider.ForceFlush fnBoom fnOk fnOk pPending).err =
      some "failed to flush logs: boom" ∧
    (Provider.ForceFlush fnBoom fnOk fnOk pPending).traceExports = [] ∧
    (Provider.ForceFlush fnBoom fnOk fnOk pPending).metricExports = [] ∧
    (Provider.ForceFlush fnBoom fnOk fnOk pPending).prov.traceBatcher =
      pPending.traceBatcher ∧
    (Provider.ForceFlush fnBoom fnOk fnOk pPending).prov.metricBatcher =
      pPending.metricBatcher :=
  ⟨rfl, rfl, rfl, rfl, rfl⟩

/-- Claim C1 (corrected): when the log batcher's flush fails, `ForceFlush`
surfaces that error to the caller wrapped as "failed to flush logs: …", but
short-circuits: the trace and metric batchers are left un-flushed and the
returned error is that first failure alone, not an aggregate. -/
theorem forceflush_shortcircuits_on_log_error {L S M E : Type}
    (fL : List L → Option String) (fS : List S → Option String)
    (fM : List M → Option String) (p : Provider L S M E)
    (lb : Batcher L) (e : String)
    (hsd : p.shutdown = false) (hlb : p.logBatcher = some lb)
    (hstop : lb.stopped = false) (hne : lb.items ≠ [])
    (hfl : fL lb.items = some e) :
    Provider.ForceFlush fL fS fM p =
      ⟨some ("failed to flush logs: " ++ e),
       { p with logBatcher := some { lb with items := [], timerArmed := true } },
       [lb.items], [], []⟩ := by
  have hlen : ¬ (lb.items.length = 0) := by
    simpa [List.length_eq_zero] using hne
  unfold Provider.ForceFlush flushLogBatcher
  simp [hsd, hlb, Flush, hstop, exportLocked, hlen, hfl, resetTimer]

/-- Witness for the corrected C1, at the concrete pending provider. -/
theorem forceflush_shortcircuits_on_log_error_witness :
    Provider.ForceFlush fnBoom fnOk fnOk pPending =
      ⟨some ("failed to flush logs: " ++ "boom"),
       { pPending with logBatcher := some (
           { items := [], maxSize := 5, timeout := 5000,
             stopped := false, timerArmed := true } : Batcher Nat) },
       [[10]], [], []⟩ :=
  forceflush_shortcircuits_on_log_error fnBoom fnOk fnOk pPending
    { items := [10], maxSize := 5, timeout := 5000,
      stopped := false, timerArmed := true }
    "boom" rfl rfl rfl (by decide) rfl

/-- Claim C4 (code bug): the spec says `Shutdown()` on an initialized,
not-yet-shut-down provider flushes the three batchers, stops them, sets
`shutdown` and returns `nil`.  In the code, `Shutdown` takes `p.mu.Lock()`
and then calls `p.ForceFlush()`, which takes `p.mu.RLock()` on the same
`sync.RWMutex` from the same goroutine; the read acquisition blocks while
the writer holds the lock and nothing can ever release it, so `Shutdown`
deadlocks (`none`) instead of completing, for every non-shut-down
provider. -/
theorem shutdown_self_deadlock {L S M E : Type}
    (fL : List L → Option String) (fS : List S → Option String)
    (fM : List M → Option String) (p : Provider L S M E)
    (hs : p.shutdown = false) :
    Provider.Shutdown muFree fL fS fM p = none := by
  simp [Provider.Shutdown, RWMutex.lock, muFree, hs,
    Provider.ForceFlushLocked, RWMutex.rLock]

/-- Witness for C4's theorem, at the concrete pending provider. -/
theorem shutdown_self_deadlock_witness :
    Provider.Shutdown muFree fnOk fnOk fnOk pPending = none :=
  shutdown_self_deadlock fnOk fnOk fnOk pPending rfl

end LocalOtel
